import Mathlib

/-!
# InspectCenterManipulator (Brayns)

A shallow embedding of `apps/ui/manipulators/InspectCenterManipulator.cpp`.

* `float` is an arbitrary scalar type `F` carrying the operations the source uses
  (`0`, unary minus, subtraction, multiplication, conversion from `int`, `<`).
  No algebraic law is assumed unless a theorem asks for one (`dragRight_nonforward` takes
  two order facts as hypotheses, `drag_depends_on_delta` asks for a ring); every other
  statement holds for IEEE floats as well as for the rationals used in the worked examples.
* `int32` screen coordinates and key codes are `Int`; the source subtracts
  coordinates as `int` before converting to `float`, and so does the model
  (signed overflow is undefined in C++ and is outside the model).
* `Viewport`, the vector `length()`, and the base class `AbstractManipulator` are
  not part of the translation unit. They are parameters (`Collaborators`).
* A handler maps the manipulator state to the new state together with the list of
  calls it made on its collaborators, in program order.
-/

namespace brayns

/-- Screen coordinates, `Vector2i` in the source. -/
structure Vector2i where
  x : Int
  y : Int
deriving DecidableEq, Repr

/-- Three scalars, `Vector3f` in the source. -/
structure Vector3f (F : Type) where
  x : F
  y : F
  z : F
deriving DecidableEq, Repr

/-- Componentwise difference, `operator-` on `Vector3f`. -/
def Vector3f.sub {F : Type} [Sub F] (a b : Vector3f F) : Vector3f F :=
  ⟨a.x - b.x, a.y - b.y, a.z - b.z⟩

/-- One call made by a handler on a collaborator. -/
inductive Call (F : Type) where
  | rotate (anchor : Vector3f F) (deltaYaw deltaPitch : F) (aroundOrigin : Bool)
  | translate (offset : Vector3f F) (panPlane : Bool)
  | baseKeypress (key : Int)
  | baseSpecialkey (key : Int)
deriving DecidableEq, Repr

/-- Calls into the transform interface of the viewport (`rotate`, `translate`). -/
def Call.isViewportCall {F : Type} : Call F → Bool
  | .rotate _ _ _ _ => true
  | .translate _ _ => true
  | .baseKeypress _ => false
  | .baseSpecialkey _ => false

/-- Recognises `rotate` calls. -/
def Call.isRotate {F : Type} : Call F → Bool
  | .rotate _ _ _ _ => true
  | _ => false

/-- Recognises `translate` calls. -/
def Call.isTranslate {F : Type} : Call F → Bool
  | .translate _ _ => true
  | _ => false

/-- Recognises calls into `AbstractManipulator`. -/
def Call.isBaseCall {F : Type} : Call F → Bool
  | .baseKeypress _ => true
  | .baseSpecialkey _ => true
  | _ => false

/-- The viewport calls of a log, in order. -/
def viewportCalls {F : Type} (log : List (Call F)) : List (Call F) :=
  log.filter Call.isViewportCall

/-- The window the manipulator refers to (`_window`): what the handlers read from it.
`V` is the state of the viewport. -/
structure BaseWindow (F V : Type) where
  viewPort : V
  rotateSpeed : F
  motionSpeed : F
  worldBoundsCenter : Vector3f F

/-- State reachable from the manipulator: the window behind `_window` and `_pivot`. -/
structure InspectCenterManipulator (F V : Type) where
  window : BaseWindow F V
  pivot : Vector3f F

/-- The four navigation key codes of `GL/glut.h`; `switch` needs distinct labels. -/
structure GlutKeys where
  GLUT_KEY_LEFT : Int
  GLUT_KEY_RIGHT : Int
  GLUT_KEY_UP : Int
  GLUT_KEY_DOWN : Int
  distinct : [GLUT_KEY_LEFT, GLUT_KEY_RIGHT, GLUT_KEY_UP, GLUT_KEY_DOWN].Nodup

/-- The values the GLUT header assigns. -/
def glutKeys : GlutKeys := ⟨100, 102, 101, 103, by decide⟩

/-- Code used by the handlers but defined elsewhere: `Viewport`, vector `length()`,
and the key handlers of the base class `AbstractManipulator`. -/
structure Collaborators (F V : Type) where
  getTarget : V → Vector3f F
  getPosition : V → Vector3f F
  rotate : V → Vector3f F → F → F → Bool → V
  translate : V → Vector3f F → Bool → V
  length : Vector3f F → F
  baseKeypress : Int → InspectCenterManipulator F V → InspectCenterManipulator F V
  baseSpecialkey : Int → InspectCenterManipulator F V → InspectCenterManipulator F V
  keys : GlutKeys

namespace InspectCenterManipulator

variable {F V : Type}

/-- The constructor: `_pivot(_window.getWorldBounds().getCenter())`. -/
def create (window : BaseWindow F V) : InspectCenterManipulator F V :=
  ⟨window, window.worldBoundsCenter⟩

/-- Replaces the state of the viewport. -/
def setViewPort (m : InspectCenterManipulator F V) (v : V) : InspectCenterManipulator F V :=
  { m with window := { m.window with viewPort := v } }

/-- The statement `viewport.rotate(anchor, deltaYaw, deltaPitch, aroundOrigin)`. -/
def callRotate (ext : Collaborators F V) (m : InspectCenterManipulator F V)
    (anchor : Vector3f F) (deltaYaw deltaPitch : F) (aroundOrigin : Bool) :
    InspectCenterManipulator F V × List (Call F) :=
  (m.setViewPort (ext.rotate m.window.viewPort anchor deltaYaw deltaPitch aroundOrigin),
    [Call.rotate anchor deltaYaw deltaPitch aroundOrigin])

/-- The statement `viewport.translate(offset, panPlane)`. -/
def callTranslate (ext : Collaborators F V) (m : InspectCenterManipulator F V)
    (offset : Vector3f F) (panPlane : Bool) :
    InspectCenterManipulator F V × List (Call F) :=
  (m.setViewPort (ext.translate m.window.viewPort offset panPlane),
    [Call.translate offset panPlane])

/-- The `switch` of `keypress`, lines 23-41. -/
def keypressSwitch [Zero F] [Neg F] (ext : Collaborators F V) (key : Int)
    (m : InspectCenterManipulator F V) : InspectCenterManipulator F V × List (Call F) :=
  let viewport := m.window.viewPort
  if key = 'a'.toNat then
    callRotate ext m (ext.getTarget viewport) m.window.rotateSpeed 0 false
  else if key = 'd'.toNat then
    callRotate ext m (ext.getTarget viewport) (-m.window.rotateSpeed) 0 false
  else if key = 'w'.toNat then
    callRotate ext m (ext.getTarget viewport) 0 m.window.rotateSpeed false
  else if key = 's'.toNat then
    callRotate ext m (ext.getTarget viewport) 0 (-m.window.rotateSpeed) false
  else
    (m, [])

/-- Handler `keypress(int32 key)`: the `switch`, then `AbstractManipulator::keypress(key)`. -/
def keypress [Zero F] [Neg F] (ext : Collaborators F V) (key : Int)
    (m : InspectCenterManipulator F V) : InspectCenterManipulator F V × List (Call F) :=
  let r := keypressSwitch ext key m
  (ext.baseKeypress key r.1, r.2 ++ [Call.baseKeypress key])

/-- Handler `button(const Vector2i&)`: the body is empty. -/
def button (_ext : Collaborators F V) (_pos : Vector2i)
    (m : InspectCenterManipulator F V) : InspectCenterManipulator F V × List (Call F) :=
  (m, [])

/-- The `switch` of `specialkey`, lines 53-71. -/
def specialkeySwitch [Zero F] [Neg F] (ext : Collaborators F V) (key : Int)
    (m : InspectCenterManipulator F V) : InspectCenterManipulator F V × List (Call F) :=
  let viewport := m.window.viewPort
  if key = ext.keys.GLUT_KEY_LEFT then
    callRotate ext m (ext.getPosition viewport) m.window.rotateSpeed 0 false
  else if key = ext.keys.GLUT_KEY_RIGHT then
    callRotate ext m (ext.getPosition viewport) (-m.window.rotateSpeed) 0 false
  else if key = ext.keys.GLUT_KEY_UP then
    callRotate ext m (ext.getPosition viewport) 0 m.window.rotateSpeed false
  else if key = ext.keys.GLUT_KEY_DOWN then
    callRotate ext m (ext.getPosition viewport) 0 (-m.window.rotateSpeed) false
  else
    (m, [])

/-- Handler `specialkey(int32 key)`: the `switch`, then `AbstractManipulator::specialkey(key)`. -/
def specialkey [Zero F] [Neg F] (ext : Collaborators F V) (key : Int)
    (m : InspectCenterManipulator F V) : InspectCenterManipulator F V × List (Call F) :=
  let r := specialkeySwitch ext key m
  (ext.baseSpecialkey key r.1, r.2 ++ [Call.baseSpecialkey key])

/-- Handler `dragRight(to, from)`. -/
def dragRight [Zero F] [Sub F] [Mul F] [IntCast F] [LT F] [∀ a b : F, Decidable (a < b)]
    (ext : Collaborators F V) (to_ from_ : Vector2i)
    (m : InspectCenterManipulator F V) : InspectCenterManipulator F V × List (Call F) :=
  let fwd : F := ((-(to_.y - from_.y) : Int) : F) * m.window.motionSpeed
  let viewport := m.window.viewPort
  let length : F := ext.length ((ext.getTarget viewport).sub (ext.getPosition viewport))
  let dir : Vector3f F := ⟨0, 0, fwd⟩
  if fwd < length then
    callTranslate ext m dir false
  else
    (m, [])

/-- Handler `dragMiddle(to, from)`. -/
def dragMiddle [Zero F] [Mul F] [IntCast F]
    (ext : Collaborators F V) (to_ from_ : Vector2i)
    (m : InspectCenterManipulator F V) : InspectCenterManipulator F V × List (Call F) :=
  let x : F := ((to_.x - from_.x : Int) : F) * m.window.motionSpeed
  let y : F := ((to_.y - from_.y : Int) : F) * m.window.motionSpeed
  callTranslate ext m ⟨x, y, 0⟩ true

/-- Handler `dragLeft(to, from)`. -/
def dragLeft [Mul F] [IntCast F]
    (ext : Collaborators F V) (to_ from_ : Vector2i)
    (m : InspectCenterManipulator F V) : InspectCenterManipulator F V × List (Call F) :=
  let viewport := m.window.viewPort
  let du : F := ((to_.x - from_.x : Int) : F) * m.window.rotateSpeed
  let dv : F := ((to_.y - from_.y : Int) : F) * m.window.rotateSpeed
  callRotate ext m (ext.getTarget viewport) du dv false

end InspectCenterManipulator

/-! ### A concrete instance over the rationals, for the worked examples -/

/-- A viewport reduced to its look-at point and its eye point. -/
structure PlainViewport where
  target : Vector3f ℚ
  position : Vector3f ℚ
deriving DecidableEq

/-- Euclidean length over the rationals, exact when the squared length is a square. -/
def ratLength (v : Vector3f ℚ) : ℚ :=
  Rat.sqrt (v.x * v.x + v.y * v.y + v.z * v.z)

/-- Test double: a viewport that ignores the transforms it receives, a base class whose
key handlers do nothing, and the key codes of the GLUT header. -/
def plainCollaborators : Collaborators ℚ PlainViewport where
  getTarget v := v.target
  getPosition v := v.position
  rotate v _ _ _ _ := v
  translate v _ _ := v
  length := ratLength
  baseKeypress _ m := m
  baseSpecialkey _ m := m
  keys := glutKeys

/-- A manipulator whose viewport looks from `position` at `target`. -/
def plainManipulator (target position : Vector3f ℚ) (rotateSpeed motionSpeed : ℚ)
    (pivot : Vector3f ℚ) : InspectCenterManipulator ℚ PlainViewport :=
  ⟨⟨⟨target, position⟩, rotateSpeed, motionSpeed, pivot⟩, pivot⟩

/-! ### A scalar with infinities and not-a-number, for the float-only cases -/

/-- Rationals extended with the two infinities and a not-a-number value. The operations
follow the IEEE rules for these special values; rounding is not modelled. -/
inductive ExtRat where
  | fin (q : ℚ)
  | inf (negative : Bool)
  | nan
deriving DecidableEq

/-- Product: `0 * inf` is not a number, otherwise the signs combine. -/
def ExtRat.mul : ExtRat → ExtRat → ExtRat
  | .fin a, .fin b => .fin (a * b)
  | .fin a, .inf s => if a = 0 then .nan else .inf (if a < 0 then !s else s)
  | .inf s, .fin b => if b = 0 then .nan else .inf (if b < 0 then !s else s)
  | .inf s, .inf t => .inf (s != t)
  | .nan, _ => .nan
  | _, .nan => .nan

/-- Difference: `inf - inf` is not a number. -/
def ExtRat.sub : ExtRat → ExtRat → ExtRat
  | .fin a, .fin b => .fin (a - b)
  | .fin _, .inf s => .inf (!s)
  | .inf s, .fin _ => .inf s
  | .inf s, .inf t => if s = t then .nan else .inf s
  | .nan, _ => .nan
  | _, .nan => .nan

/-- Comparison `<`: false as soon as one side is not a number. -/
def ExtRat.lt : ExtRat → ExtRat → Bool
  | .fin a, .fin b => decide (a < b)
  | .fin _, .inf s => !s
  | .inf s, .fin _ => s
  | .inf s, .inf t => s && !t
  | .nan, _ => false
  | _, .nan => false

instance : Zero ExtRat := ⟨ExtRat.fin 0⟩

instance : Mul ExtRat := ⟨ExtRat.mul⟩

instance : Sub ExtRat := ⟨ExtRat.sub⟩

instance : IntCast ExtRat := ⟨fun n => ExtRat.fin n⟩

instance : LT ExtRat := ⟨fun a b => ExtRat.lt a b = true⟩

instance (a b : ExtRat) : Decidable (a < b) :=
  inferInstanceAs (Decidable (ExtRat.lt a b = true))

/-- Vector length: not a number if a component is, infinite if a component is, and the
rational length otherwise. -/
def extLength (v : Vector3f ExtRat) : ExtRat :=
  match v.x, v.y, v.z with
  | .fin x, .fin y, .fin z => .fin (ratLength ⟨x, y, z⟩)
  | .nan, _, _ => .nan
  | _, .nan, _ => .nan
  | _, _, .nan => .nan
  | _, _, _ => .inf false

/-- A viewport over the extended scalars, reduced to target and position. -/
structure ExtViewport where
  target : Vector3f ExtRat
  position : Vector3f ExtRat

/-- Test double over the extended scalars, built like `plainCollaborators`. -/
def extCollaborators : Collaborators ExtRat ExtViewport where
  getTarget v := v.target
  getPosition v := v.position
  rotate v _ _ _ _ := v
  translate v _ _ := v
  length := extLength
  baseKeypress _ m := m
  baseSpecialkey _ m := m
  keys := glutKeys

/-- A manipulator over the extended scalars. -/
def extManipulator (target position : Vector3f ExtRat) (rotateSpeed motionSpeed : ExtRat)
    (pivot : Vector3f ExtRat) : InspectCenterManipulator ExtRat ExtViewport :=
  ⟨⟨⟨target, position⟩, rotateSpeed, motionSpeed, pivot⟩, pivot⟩

/-! ## Theorems -/

namespace InspectCenterManipulator

variable {F V : Type}

/-- C1: `keypress` issues exactly one viewport call for each of the keys `a`, `d`, `w`, `s`,
namely `rotate` anchored at the current target with `aroundOrigin = false` and the signed
rotate speed `(+r, 0)`, `(-r, 0)`, `(0, +r)`, `(0, -r)`; for every other key code it issues
no viewport call. -/
theorem keypress_rotate_table [Zero F] [Neg F] (ext : Collaborators F V)
    (m : InspectCenterManipulator F V) :
    viewportCalls (keypress ext 'a'.toNat m).2
        = [Call.rotate (ext.getTarget m.window.viewPort) m.window.rotateSpeed 0 false] ∧
    viewportCalls (keypress ext 'd'.toNat m).2
        = [Call.rotate (ext.getTarget m.window.viewPort) (-m.window.rotateSpeed) 0 false] ∧
    viewportCalls (keypress ext 'w'.toNat m).2
        = [Call.rotate (ext.getTarget m.window.viewPort) 0 m.window.rotateSpeed false] ∧
    viewportCalls (keypress ext 's'.toNat m).2
        = [Call.rotate (ext.getTarget m.window.viewPort) 0 (-m.window.rotateSpeed) false] ∧
    ∀ key : Int, key ≠ 'a'.toNat → key ≠ 'd'.toNat → key ≠ 'w'.toNat → key ≠ 's'.toNat →
      viewportCalls (keypress ext key m).2 = [] ∧
      (keypress ext key m).2.filter Call.isRotate = [] := by
  refine ⟨?_, ?_, ?_, ?_, ?_⟩
  · simp [keypress, keypressSwitch, callRotate, viewportCalls, Call.isViewportCall]
  · simp [keypress, keypressSwitch, callRotate, viewportCalls, Call.isViewportCall]
  · simp [keypress, keypressSwitch, callRotate, viewportCalls, Call.isViewportCall]
  · simp [keypress, keypressSwitch, callRotate, viewportCalls, Call.isViewportCall]
  · intro key ha hd hw hs
    have ha' : key ≠ 97 := by simpa using ha
    have hd' : key ≠ 100 := by simpa using hd
    have hw' : key ≠ 119 := by simpa using hw
    have hs' : key ≠ 115 := by simpa using hs
    simp [keypress, keypressSwitch, viewportCalls, Call.isViewportCall, Call.isRotate,
      ha', hd', hw', hs']

/-- C1, scenario of the specification: rotate speed `1.0` and key `a` (code 97) give the
single viewport call `rotate(target, 1.0, 0, false)`. -/
theorem keypress_rotate_table_witness :
    viewportCalls (keypress plainCollaborators 97
        (plainManipulator ⟨0, 0, 3⟩ ⟨0, 0, 0⟩ 1 (1 / 2) ⟨0, 0, 0⟩)).2
      = [Call.rotate ⟨0, 0, 3⟩ 1 0 false] :=
  (keypress_rotate_table plainCollaborators
    (plainManipulator ⟨0, 0, 3⟩ ⟨0, 0, 0⟩ 1 (1 / 2) ⟨0, 0, 0⟩)).1

/-- The length of a vector along the view axis, seen from the origin. -/
theorem ratLength_axis (c : ℚ) (hc : 0 ≤ c) :
    ratLength ((Vector3f.mk 0 0 c).sub ⟨0, 0, 0⟩) = c := by
  simp only [ratLength, Vector3f.sub]
  rw [show ((0 - 0) * (0 - 0) + (0 - 0) * (0 - 0) + (c - 0) * (c - 0) : ℚ) = c * c by ring,
    Rat.sqrt_eq, abs_of_nonneg hc]

/-- The navigation key codes are pairwise different. -/
theorem glutKeys_ne (k : GlutKeys) :
    k.GLUT_KEY_RIGHT ≠ k.GLUT_KEY_LEFT ∧ k.GLUT_KEY_UP ≠ k.GLUT_KEY_LEFT ∧
    k.GLUT_KEY_UP ≠ k.GLUT_KEY_RIGHT ∧ k.GLUT_KEY_DOWN ≠ k.GLUT_KEY_LEFT ∧
    k.GLUT_KEY_DOWN ≠ k.GLUT_KEY_RIGHT ∧ k.GLUT_KEY_DOWN ≠ k.GLUT_KEY_UP := by
  have h := k.distinct
  simp only [List.nodup_cons, List.mem_cons, List.mem_singleton, not_or, List.not_mem_nil,
    not_false_eq_true, List.nodup_nil, and_true] at h
  obtain ⟨⟨h1, h2, h3⟩, ⟨h4, h5⟩, h6⟩ := h
  exact ⟨Ne.symm h1, Ne.symm h2, Ne.symm h4, Ne.symm h3, Ne.symm h5, Ne.symm h6⟩

/-- C2: `specialkey` issues exactly one viewport call for each of the navigation keys
left, right, up, down, namely `rotate` anchored at the current position (the eye point)
with `aroundOrigin = false` and the signed rotate speed `(+r, 0)`, `(-r, 0)`, `(0, +r)`,
`(0, -r)`; for every other special key code it issues no viewport call. -/
theorem specialkey_rotate_table [Zero F] [Neg F] (ext : Collaborators F V)
    (m : InspectCenterManipulator F V) :
    viewportCalls (specialkey ext ext.keys.GLUT_KEY_LEFT m).2
        = [Call.rotate (ext.getPosition m.window.viewPort) m.window.rotateSpeed 0 false] ∧
    viewportCalls (specialkey ext ext.keys.GLUT_KEY_RIGHT m).2
        = [Call.rotate (ext.getPosition m.window.viewPort) (-m.window.rotateSpeed) 0 false] ∧
    viewportCalls (specialkey ext ext.keys.GLUT_KEY_UP m).2
        = [Call.rotate (ext.getPosition m.window.viewPort) 0 m.window.rotateSpeed false] ∧
    viewportCalls (specialkey ext ext.keys.GLUT_KEY_DOWN m).2
        = [Call.rotate (ext.getPosition m.window.viewPort) 0 (-m.window.rotateSpeed) false] ∧
    ∀ key : Int, key ≠ ext.keys.GLUT_KEY_LEFT → key ≠ ext.keys.GLUT_KEY_RIGHT →
      key ≠ ext.keys.GLUT_KEY_UP → key ≠ ext.keys.GLUT_KEY_DOWN →
      viewportCalls (specialkey ext key m).2 = [] ∧
      (specialkey ext key m).2.filter Call.isRotate = [] := by
  obtain ⟨hrl, hul, hur, hdl, hdr, hdu⟩ := glutKeys_ne ext.keys
  refine ⟨?_, ?_, ?_, ?_, ?_⟩
  · simp [specialkey, specialkeySwitch, callRotate, viewportCalls, Call.isViewportCall]
  · simp [specialkey, specialkeySwitch, callRotate, viewportCalls, Call.isViewportCall, hrl]
  · simp [specialkey, specialkeySwitch, callRotate, viewportCalls, Call.isViewportCall,
      hul, hur]
  · simp [specialkey, specialkeySwitch, callRotate, viewportCalls, Call.isViewportCall,
      hdl, hdr, hdu]
  · intro key hl hr hu hd
    simp [specialkey, specialkeySwitch, viewportCalls, Call.isViewportCall, Call.isRotate,
      hl, hr, hu, hd]

/-- C2, example with the GLUT codes: rotate speed `1` and `GLUT_KEY_RIGHT` (102) give the
single viewport call `rotate(position, -1, 0, false)`. -/
theorem specialkey_rotate_table_witness :
    viewportCalls (specialkey plainCollaborators 102
        (plainManipulator ⟨0, 0, 3⟩ ⟨1, 2, 0⟩ 1 (1 / 2) ⟨0, 0, 0⟩)).2
      = [Call.rotate ⟨1, 2, 0⟩ (-1) 0 false] :=
  (specialkey_rotate_table plainCollaborators
    (plainManipulator ⟨0, 0, 3⟩ ⟨1, 2, 0⟩ 1 (1 / 2) ⟨0, 0, 0⟩)).2.1

/-- C3: with `forwardAmount = -(to.y - from.y) * motionSpeed` and
`viewLength = |target - position|`, `dragRight` issues the single call
`translate((0, 0, forwardAmount), false)` (and hands the viewport exactly that transform) when
`forwardAmount < viewLength`, and otherwise issues no call and leaves the state as it is. -/
theorem dragRight_guard [Zero F] [Sub F] [Mul F] [IntCast F] [LT F]
    [∀ a b : F, Decidable (a < b)] (ext : Collaborators F V)
    (m : InspectCenterManipulator F V) (to_ from_ : Vector2i) (forwardAmount viewLength : F)
    (hf : forwardAmount = ((-(to_.y - from_.y) : Int) : F) * m.window.motionSpeed)
    (hl : viewLength = ext.length
      ((ext.getTarget m.window.viewPort).sub (ext.getPosition m.window.viewPort))) :
    (forwardAmount < viewLength →
      dragRight ext to_ from_ m
        = (m.setViewPort (ext.translate m.window.viewPort ⟨0, 0, forwardAmount⟩ false),
            [Call.translate ⟨0, 0, forwardAmount⟩ false])) ∧
    (¬ forwardAmount < viewLength → dragRight ext to_ from_ m = (m, [])) := by
  subst hf hl
  constructor
  · intro h
    simp only [dragRight, callTranslate, if_pos h]
  · intro h
    simp only [dragRight, if_neg h]

/-- C3, scenario of the specification: motion speed `0.5`, a right drag from `(0,0)` to
`(0,10)` and a view length of `3` give the single call `translate((0,0,-5), false)`. -/
theorem dragRight_guard_witness :
    ratLength ((Vector3f.mk 0 0 3).sub ⟨0, 0, 0⟩) = 3 ∧
    (dragRight plainCollaborators ⟨0, 10⟩ ⟨0, 0⟩
        (plainManipulator ⟨0, 0, 3⟩ ⟨0, 0, 0⟩ 1 (1 / 2) ⟨0, 0, 0⟩)).2
      = [Call.translate ⟨0, 0, -5⟩ false] := by
  have hlen : ratLength ((Vector3f.mk 0 0 3).sub ⟨0, 0, 0⟩) = 3 :=
    ratLength_axis 3 (by norm_num)
  refine ⟨hlen, ?_⟩
  have h := (dragRight_guard plainCollaborators
    (plainManipulator ⟨0, 0, 3⟩ ⟨0, 0, 0⟩ 1 (1 / 2) ⟨0, 0, 0⟩) ⟨0, 10⟩ ⟨0, 0⟩ (-5) 3
    (by norm_num [plainManipulator]) (by simpa [plainManipulator, plainCollaborators] using hlen.symm)).1
    (by norm_num)
  rw [h]

/-- C4: `dragMiddle` pans unconditionally: for every `to`, `from` and motion speed `m` it
issues exactly the one call `translate(((to.x - from.x) * m, (to.y - from.y) * m, 0), true)`,
hands the viewport exactly that transform, and issues no `rotate` call. -/
theorem dragMiddle_pan [Zero F] [Mul F] [IntCast F] (ext : Collaborators F V)
    (m : InspectCenterManipulator F V) (to_ from_ : Vector2i) :
    dragMiddle ext to_ from_ m
      = (m.setViewPort (ext.translate m.window.viewPort
            ⟨((to_.x - from_.x : Int) : F) * m.window.motionSpeed,
              ((to_.y - from_.y : Int) : F) * m.window.motionSpeed, 0⟩ true),
          [Call.translate
            ⟨((to_.x - from_.x : Int) : F) * m.window.motionSpeed,
              ((to_.y - from_.y : Int) : F) * m.window.motionSpeed, 0⟩ true]) ∧
    (dragMiddle ext to_ from_ m).2.filter Call.isRotate = [] := by
  constructor
  · rfl
  · simp [dragMiddle, callTranslate, Call.isRotate]

/-- C4, scenario of the specification: motion speed `2.0` and a middle drag from `(0,0)` to
`(3,4)` give the single call `translate((6,8,0), true)`; a zero delta still translates. -/
theorem dragMiddle_pan_witness :
    (dragMiddle plainCollaborators ⟨3, 4⟩ ⟨0, 0⟩
        (plainManipulator ⟨0, 0, 3⟩ ⟨0, 0, 0⟩ 1 2 ⟨0, 0, 0⟩)).2
      = [Call.translate ⟨6, 8, 0⟩ true] ∧
    (dragMiddle plainCollaborators ⟨7, 7⟩ ⟨7, 7⟩
        (plainManipulator ⟨0, 0, 3⟩ ⟨0, 0, 0⟩ 1 2 ⟨0, 0, 0⟩)).2
      = [Call.translate ⟨0, 0, 0⟩ true] := by
  constructor
  · rw [(dragMiddle_pan plainCollaborators
      (plainManipulator ⟨0, 0, 3⟩ ⟨0, 0, 0⟩ 1 2 ⟨0, 0, 0⟩) ⟨3, 4⟩ ⟨0, 0⟩).1]
    norm_num [plainManipulator]
  · rw [(dragMiddle_pan plainCollaborators
      (plainManipulator ⟨0, 0, 3⟩ ⟨0, 0, 0⟩ 1 2 ⟨0, 0, 0⟩) ⟨7, 7⟩ ⟨7, 7⟩).1]
    norm_num [plainManipulator]

/-- C5: `dragLeft` orbits unconditionally: for every `to`, `from` and rotate speed `r` it
issues exactly the one call
`rotate(target, (to.x - from.x) * r, (to.y - from.y) * r, false)`, hands the viewport
exactly that transform, and issues no `translate` call. -/
theorem dragLeft_orbit [Mul F] [IntCast F] (ext : Collaborators F V)
    (m : InspectCenterManipulator F V) (to_ from_ : Vector2i) :
    dragLeft ext to_ from_ m
      = (m.setViewPort (ext.rotate m.window.viewPort (ext.getTarget m.window.viewPort)
            (((to_.x - from_.x : Int) : F) * m.window.rotateSpeed)
            (((to_.y - from_.y : Int) : F) * m.window.rotateSpeed) false),
          [Call.rotate (ext.getTarget m.window.viewPort)
            (((to_.x - from_.x : Int) : F) * m.window.rotateSpeed)
            (((to_.y - from_.y : Int) : F) * m.window.rotateSpeed) false]) ∧
    (dragLeft ext to_ from_ m).2.filter Call.isTranslate = [] := by
  constructor
  · rfl
  · simp [dragLeft, callRotate, Call.isTranslate]

/-- C5, example: rotate speed `1/2` and a left drag from `(1,1)` to `(5,-1)` give the single
call `rotate(target, 2, -1, false)`. -/
theorem dragLeft_orbit_witness :
    (dragLeft plainCollaborators ⟨5, -1⟩ ⟨1, 1⟩
        (plainManipulator ⟨0, 0, 3⟩ ⟨0, 0, 0⟩ (1 / 2) 2 ⟨0, 0, 0⟩)).2
      = [Call.rotate ⟨0, 0, 3⟩ 2 (-1) false] := by
  rw [(dragLeft_orbit plainCollaborators
    (plainManipulator ⟨0, 0, 3⟩ ⟨0, 0, 0⟩ (1 / 2) 2 ⟨0, 0, 0⟩) ⟨5, -1⟩ ⟨1, 1⟩).1]
  norm_num [plainManipulator, plainCollaborators]

/-- C6: `button` makes no call at all (no `rotate`, no `translate`, no base-class call) and
returns the manipulator, its window and the viewport unchanged, for every screen position
and every state. -/
theorem button_noop (ext : Collaborators F V) (pos : Vector2i)
    (m : InspectCenterManipulator F V) :
    (button ext pos m).2 = [] ∧ viewportCalls (button ext pos m).2 = [] ∧
    (button ext pos m).1 = m ∧ (button ext pos m).1.window.viewPort = m.window.viewPort := by
  simp [button, viewportCalls]

/-- C7: for every key code, `keypress` calls the base `keypress` exactly once, with the same
key, as the last call of the handler and on the state the local `switch` produced; every
call before it is a `rotate`. The same holds for `specialkey` and the base `specialkey`. -/
theorem key_handlers_delegate_to_base [Zero F] [Neg F] (ext : Collaborators F V)
    (m : InspectCenterManipulator F V) (key : Int) :
    ((keypress ext key m).2 = viewportCalls (keypress ext key m).2 ++ [Call.baseKeypress key] ∧
      (∀ c ∈ viewportCalls (keypress ext key m).2, c.isRotate = true) ∧
      (keypress ext key m).2.filter Call.isBaseCall = [Call.baseKeypress key] ∧
      (keypress ext key m).1 = ext.baseKeypress key (keypressSwitch ext key m).1) ∧
    ((specialkey ext key m).2
        = viewportCalls (specialkey ext key m).2 ++ [Call.baseSpecialkey key] ∧
      (∀ c ∈ viewportCalls (specialkey ext key m).2, c.isRotate = true) ∧
      (specialkey ext key m).2.filter Call.isBaseCall = [Call.baseSpecialkey key] ∧
      (specialkey ext key m).1 = ext.baseSpecialkey key (specialkeySwitch ext key m).1) := by
  constructor
  · simp only [keypress, keypressSwitch, callRotate, viewportCalls]
    split_ifs <;> simp [Call.isViewportCall, Call.isRotate, Call.isBaseCall]
  · simp only [specialkey, specialkeySwitch, callRotate, viewportCalls]
    split_ifs <;> simp [Call.isViewportCall, Call.isRotate, Call.isBaseCall]

/-- C8, as stated, fails: `keypress` with the unbound key `x` (code 120) issues no viewport
call, and so does a right drag whose forward amount `5` is not below the view length `3`. -/
theorem one_call_per_event_counterexample :
    (viewportCalls (keypress plainCollaborators 120
        (plainManipulator ⟨0, 0, 3⟩ ⟨0, 0, 0⟩ 1 (1 / 2) ⟨0, 0, 0⟩)).2).length = 0 ∧
    (viewportCalls (dragRight plainCollaborators ⟨0, -10⟩ ⟨0, 0⟩
        (plainManipulator ⟨0, 0, 3⟩ ⟨0, 0, 0⟩ 1 (1 / 2) ⟨0, 0, 0⟩)).2).length = 0 := by
  constructor
  · simp [keypress, keypressSwitch, viewportCalls, Call.isViewportCall]
  · have hlen : ratLength ((Vector3f.mk 0 0 3).sub ⟨0, 0, 0⟩) = 3 :=
      ratLength_axis 3 (by norm_num)
    have hguard : ¬ (((-(-10 - 0) : Int) : ℚ) * (1 / 2)
        < ratLength ((Vector3f.mk 0 0 3).sub ⟨0, 0, 0⟩)) := by
      rw [hlen]; norm_num
    simp only [dragRight, plainManipulator, plainCollaborators, if_neg hguard, viewportCalls,
      List.filter_nil, List.length_nil]

/-- C8, amended: per event, `dragLeft` and `dragMiddle` issue exactly one viewport call;
`keypress` and `specialkey` issue exactly one when the key is one of their four bound keys
and none otherwise; `dragRight` issues exactly one when `forwardAmount < viewLength` and
none otherwise. -/
theorem viewport_calls_per_event [Zero F] [Neg F] [Sub F] [Mul F] [IntCast F] [LT F]
    [∀ a b : F, Decidable (a < b)] (ext : Collaborators F V)
    (m : InspectCenterManipulator F V) (key : Int) (to_ from_ : Vector2i) :
    (viewportCalls (dragLeft ext to_ from_ m).2).length = 1 ∧
    (viewportCalls (dragMiddle ext to_ from_ m).2).length = 1 ∧
    (viewportCalls (keypress ext key m).2).length
      = (if key = 'a'.toNat ∨ key = 'd'.toNat ∨ key = 'w'.toNat ∨ key = 's'.toNat
          then 1 else 0) ∧
    (viewportCalls (specialkey ext key m).2).length
      = (if key = ext.keys.GLUT_KEY_LEFT ∨ key = ext.keys.GLUT_KEY_RIGHT ∨
            key = ext.keys.GLUT_KEY_UP ∨ key = ext.keys.GLUT_KEY_DOWN then 1 else 0) ∧
    (viewportCalls (dragRight ext to_ from_ m).2).length
      = (if ((-(to_.y - from_.y) : Int) : F) * m.window.motionSpeed
            < ext.length
              ((ext.getTarget m.window.viewPort).sub (ext.getPosition m.window.viewPort))
          then 1 else 0) := by
  refine ⟨?_, ?_, ?_, ?_, ?_⟩
  · simp [dragLeft, callRotate, viewportCalls, Call.isViewportCall]
  · simp [dragMiddle, callTranslate, viewportCalls, Call.isViewportCall]
  · simp only [keypress, keypressSwitch, callRotate, viewportCalls]
    split_ifs <;> simp_all [Call.isViewportCall]
  · simp only [specialkey, specialkeySwitch, callRotate, viewportCalls]
    split_ifs <;> simp_all [Call.isViewportCall]
  · simp only [dragRight, callTranslate, viewportCalls]
    split_ifs <;> simp [Call.isViewportCall]

/-- C9: for a single input event every handler (`keypress`, `specialkey`, `button`,
`dragLeft`, `dragMiddle`, `dragRight`) issues at most one viewport call (`rotate` or
`translate`), for every input and every state. -/
theorem at_most_one_viewport_call [Zero F] [Neg F] [Sub F] [Mul F] [IntCast F] [LT F]
    [∀ a b : F, Decidable (a < b)] (ext : Collaborators F V)
    (m : InspectCenterManipulator F V) (key : Int) (pos to_ from_ : Vector2i) :
    (viewportCalls (keypress ext key m).2).length ≤ 1 ∧
    (viewportCalls (specialkey ext key m).2).length ≤ 1 ∧
    (viewportCalls (button ext pos m).2).length ≤ 1 ∧
    (viewportCalls (dragLeft ext to_ from_ m).2).length ≤ 1 ∧
    (viewportCalls (dragMiddle ext to_ from_ m).2).length ≤ 1 ∧
    (viewportCalls (dragRight ext to_ from_ m).2).length ≤ 1 := by
  refine ⟨?_, ?_, ?_, ?_, ?_, ?_⟩
  · simp only [keypress, keypressSwitch, callRotate, viewportCalls]
    split_ifs <;> simp [Call.isViewportCall]
  · simp only [specialkey, specialkeySwitch, callRotate, viewportCalls]
    split_ifs <;> simp [Call.isViewportCall]
  · simp [button, viewportCalls]
  · simp [dragLeft, callRotate, viewportCalls, Call.isViewportCall]
  · simp [dragMiddle, callTranslate, viewportCalls, Call.isViewportCall]
  · simp only [dragRight, callTranslate, viewportCalls]
    split_ifs <;> simp [Call.isViewportCall]

/-- C10, as stated, fails: with the same key, the same drag and the same two speeds, the
viewport calls differ when only the viewport target differs. Key `a` rotates about a
different anchor, and the right drag with forward amount `5` is dropped for a target at
distance `3` but issued for a target at distance `10`. -/
theorem calls_depend_on_viewport_counterexample :
    viewportCalls (keypress plainCollaborators 97
        (plainManipulator ⟨0, 0, 3⟩ ⟨0, 0, 0⟩ 1 (1 / 2) ⟨0, 0, 0⟩)).2
      ≠ viewportCalls (keypress plainCollaborators 97
        (plainManipulator ⟨0, 0, 10⟩ ⟨0, 0, 0⟩ 1 (1 / 2) ⟨0, 0, 0⟩)).2 ∧
    viewportCalls (dragRight plainCollaborators ⟨0, -10⟩ ⟨0, 0⟩
        (plainManipulator ⟨0, 0, 3⟩ ⟨0, 0, 0⟩ 1 (1 / 2) ⟨0, 0, 0⟩)).2 = [] ∧
    viewportCalls (dragRight plainCollaborators ⟨0, -10⟩ ⟨0, 0⟩
        (plainManipulator ⟨0, 0, 10⟩ ⟨0, 0, 0⟩ 1 (1 / 2) ⟨0, 0, 0⟩)).2
      = [Call.translate ⟨0, 0, 5⟩ false] := by
  refine ⟨?_, ?_, ?_⟩
  · simp [keypress, keypressSwitch, callRotate, viewportCalls, Call.isViewportCall,
      plainManipulator, plainCollaborators]
  · have hlen : ratLength ((Vector3f.mk 0 0 3).sub ⟨0, 0, 0⟩) = 3 :=
      ratLength_axis 3 (by norm_num)
    have hguard : ¬ (((-(-10 - 0) : Int) : ℚ) * (1 / 2)
        < ratLength ((Vector3f.mk 0 0 3).sub ⟨0, 0, 0⟩)) := by
      rw [hlen]; norm_num
    simp only [dragRight, plainManipulator, plainCollaborators, if_neg hguard, viewportCalls,
      List.filter_nil]
  · have hlen : ratLength ((Vector3f.mk 0 0 10).sub ⟨0, 0, 0⟩) = 10 :=
      ratLength_axis 10 (by norm_num)
    have hguard : ((-(-10 - 0) : Int) : ℚ) * (1 / 2)
        < ratLength ((Vector3f.mk 0 0 10).sub ⟨0, 0, 0⟩) := by
      rw [hlen]; norm_num
    simp only [dragRight, plainManipulator, plainCollaborators, if_pos hguard, viewportCalls,
      callTranslate]
    norm_num [Call.isViewportCall]

/-- C10, amended: two runs of a handler on the same event input with the same rotate speed,
the same motion speed and the same viewport target and position make identical calls,
whatever the rest of the state (pivot, world bounds, other viewport state) is. -/
theorem calls_determined_by_inputs [Zero F] [Neg F] [Sub F] [Mul F] [IntCast F] [LT F]
    [∀ a b : F, Decidable (a < b)] (ext : Collaborators F V)
    (m₁ m₂ : InspectCenterManipulator F V) (key : Int) (pos to_ from_ : Vector2i)
    (hr : m₁.window.rotateSpeed = m₂.window.rotateSpeed)
    (hm : m₁.window.motionSpeed = m₂.window.motionSpeed)
    (ht : ext.getTarget m₁.window.viewPort = ext.getTarget m₂.window.viewPort)
    (hp : ext.getPosition m₁.window.viewPort = ext.getPosition m₂.window.viewPort) :
    (keypress ext key m₁).2 = (keypress ext key m₂).2 ∧
    (specialkey ext key m₁).2 = (specialkey ext key m₂).2 ∧
    (button ext pos m₁).2 = (button ext pos m₂).2 ∧
    (dragLeft ext to_ from_ m₁).2 = (dragLeft ext to_ from_ m₂).2 ∧
    (dragMiddle ext to_ from_ m₁).2 = (dragMiddle ext to_ from_ m₂).2 ∧
    (dragRight ext to_ from_ m₁).2 = (dragRight ext to_ from_ m₂).2 := by
  refine ⟨?_, ?_, ?_, ?_, ?_, ?_⟩
  · simp only [keypress, keypressSwitch, callRotate, hr, ht]
    split_ifs <;> rfl
  · simp only [specialkey, specialkeySwitch, callRotate, hr, hp]
    split_ifs <;> rfl
  · rfl
  · simp only [dragLeft, callRotate, hr, ht]
  · simp only [dragMiddle, callTranslate, hm]
  · simp only [dragRight, callTranslate, hm, ht, hp]
    split_ifs <;> rfl

/-- C10, example: two manipulators that differ in pivot and world bounds only make the same
calls for key code 97 in both key handlers, for a button event and for each drag. -/
theorem calls_determined_by_inputs_witness :
    (keypress plainCollaborators 97
        (plainManipulator ⟨0, 0, 3⟩ ⟨0, 0, 0⟩ 1 (1 / 2) ⟨0, 0, 0⟩)).2
      = (keypress plainCollaborators 97
        (plainManipulator ⟨0, 0, 3⟩ ⟨0, 0, 0⟩ 1 (1 / 2) ⟨7, 8, 9⟩)).2 ∧
    (specialkey plainCollaborators 97
        (plainManipulator ⟨0, 0, 3⟩ ⟨0, 0, 0⟩ 1 (1 / 2) ⟨0, 0, 0⟩)).2
      = (specialkey plainCollaborators 97
        (plainManipulator ⟨0, 0, 3⟩ ⟨0, 0, 0⟩ 1 (1 / 2) ⟨7, 8, 9⟩)).2 ∧
    (button plainCollaborators ⟨4, 4⟩
        (plainManipulator ⟨0, 0, 3⟩ ⟨0, 0, 0⟩ 1 (1 / 2) ⟨0, 0, 0⟩)).2
      = (button plainCollaborators ⟨4, 4⟩
        (plainManipulator ⟨0, 0, 3⟩ ⟨0, 0, 0⟩ 1 (1 / 2) ⟨7, 8, 9⟩)).2 ∧
    (dragLeft plainCollaborators ⟨0, 10⟩ ⟨0, 0⟩
        (plainManipulator ⟨0, 0, 3⟩ ⟨0, 0, 0⟩ 1 (1 / 2) ⟨0, 0, 0⟩)).2
      = (dragLeft plainCollaborators ⟨0, 10⟩ ⟨0, 0⟩
        (plainManipulator ⟨0, 0, 3⟩ ⟨0, 0, 0⟩ 1 (1 / 2) ⟨7, 8, 9⟩)).2 ∧
    (dragMiddle plainCollaborators ⟨0, 10⟩ ⟨0, 0⟩
        (plainManipulator ⟨0, 0, 3⟩ ⟨0, 0, 0⟩ 1 (1 / 2) ⟨0, 0, 0⟩)).2
      = (dragMiddle plainCollaborators ⟨0, 10⟩ ⟨0, 0⟩
        (plainManipulator ⟨0, 0, 3⟩ ⟨0, 0, 0⟩ 1 (1 / 2) ⟨7, 8, 9⟩)).2 ∧
    (dragRight plainCollaborators ⟨0, 10⟩ ⟨0, 0⟩
        (plainManipulator ⟨0, 0, 3⟩ ⟨0, 0, 0⟩ 1 (1 / 2) ⟨0, 0, 0⟩)).2
      = (dragRight plainCollaborators ⟨0, 10⟩ ⟨0, 0⟩
        (plainManipulator ⟨0, 0, 3⟩ ⟨0, 0, 0⟩ 1 (1 / 2) ⟨7, 8, 9⟩)).2 :=
  calls_determined_by_inputs plainCollaborators
    (plainManipulator ⟨0, 0, 3⟩ ⟨0, 0, 0⟩ 1 (1 / 2) ⟨0, 0, 0⟩)
    (plainManipulator ⟨0, 0, 3⟩ ⟨0, 0, 0⟩ 1 (1 / 2) ⟨7, 8, 9⟩)
    97 ⟨4, 4⟩ ⟨0, 10⟩ ⟨0, 0⟩ rfl rfl rfl rfl

/-- C11: in `dragRight` only the vertical drag delta matters: two drags with the same
`to.y - from.y` give the same result (the same decision to translate, the same offset, the
same new state), whatever their x coordinates are. -/
theorem dragRight_vertical_only [Zero F] [Sub F] [Mul F] [IntCast F] [LT F]
    [∀ a b : F, Decidable (a < b)] (ext : Collaborators F V)
    (m : InspectCenterManipulator F V) (to₁ from₁ to₂ from₂ : Vector2i)
    (h : to₁.y - from₁.y = to₂.y - from₂.y) :
    dragRight ext to₁ from₁ m = dragRight ext to₂ from₂ m ∧
    viewportCalls (dragRight ext to₁ from₁ m).2
      = viewportCalls (dragRight ext to₂ from₂ m).2 := by
  have key : dragRight ext to₁ from₁ m = dragRight ext to₂ from₂ m := by
    simp only [dragRight, h]
  exact ⟨key, by rw [key]⟩

/-- C11, example: the drags `(0,0) → (0,10)` and `(-3,5) → (7,15)` have the same vertical
delta `10` and different horizontal deltas; `dragRight` makes the same calls for both. -/
theorem dragRight_vertical_only_witness :
    dragRight plainCollaborators ⟨0, 10⟩ ⟨0, 0⟩
        (plainManipulator ⟨0, 0, 3⟩ ⟨0, 0, 0⟩ 1 (1 / 2) ⟨0, 0, 0⟩)
      = dragRight plainCollaborators ⟨7, 15⟩ ⟨-3, 5⟩
        (plainManipulator ⟨0, 0, 3⟩ ⟨0, 0, 0⟩ 1 (1 / 2) ⟨0, 0, 0⟩) ∧
    viewportCalls (dragRight plainCollaborators ⟨0, 10⟩ ⟨0, 0⟩
        (plainManipulator ⟨0, 0, 3⟩ ⟨0, 0, 0⟩ 1 (1 / 2) ⟨0, 0, 0⟩)).2
      = viewportCalls (dragRight plainCollaborators ⟨7, 15⟩ ⟨-3, 5⟩
        (plainManipulator ⟨0, 0, 3⟩ ⟨0, 0, 0⟩ 1 (1 / 2) ⟨0, 0, 0⟩)).2 :=
  dragRight_vertical_only plainCollaborators
    (plainManipulator ⟨0, 0, 3⟩ ⟨0, 0, 0⟩ 1 (1 / 2) ⟨0, 0, 0⟩)
    ⟨0, 10⟩ ⟨0, 0⟩ ⟨7, 15⟩ ⟨-3, 5⟩ (by decide)

/-- C12: the constructor sets the pivot to the center of the window's world bounds; the
local handling of every handler (the `switch` of `keypress` and of `specialkey`, `button`,
`dragLeft`, `dragMiddle`, `dragRight`) returns the pivot it was given; and the calls a
handler makes are the same whatever value the pivot has. -/
theorem pivot_frame [Zero F] [Neg F] [Sub F] [Mul F] [IntCast F] [LT F]
    [∀ a b : F, Decidable (a < b)] (ext : Collaborators F V) (window : BaseWindow F V)
    (m : InspectCenterManipulator F V) (key : Int) (pos to_ from_ : Vector2i)
    (p : Vector3f F) :
    (create window).pivot = window.worldBoundsCenter ∧
    ((keypressSwitch ext key m).1.pivot = m.pivot ∧
      (specialkeySwitch ext key m).1.pivot = m.pivot ∧
      (button ext pos m).1.pivot = m.pivot ∧
      (dragLeft ext to_ from_ m).1.pivot = m.pivot ∧
      (dragMiddle ext to_ from_ m).1.pivot = m.pivot ∧
      (dragRight ext to_ from_ m).1.pivot = m.pivot) ∧
    ((keypress ext key ⟨m.window, p⟩).2 = (keypress ext key m).2 ∧
      (specialkey ext key ⟨m.window, p⟩).2 = (specialkey ext key m).2 ∧
      (button ext pos ⟨m.window, p⟩).2 = (button ext pos m).2 ∧
      (dragLeft ext to_ from_ ⟨m.window, p⟩).2 = (dragLeft ext to_ from_ m).2 ∧
      (dragMiddle ext to_ from_ ⟨m.window, p⟩).2 = (dragMiddle ext to_ from_ m).2 ∧
      (dragRight ext to_ from_ ⟨m.window, p⟩).2 = (dragRight ext to_ from_ m).2) := by
  refine ⟨rfl, ⟨?_, ?_, rfl, rfl, rfl, ?_⟩, ⟨?_, ?_, rfl, rfl, rfl, ?_⟩⟩
  · simp only [keypressSwitch, callRotate, setViewPort]
    split_ifs <;> rfl
  · simp only [specialkeySwitch, callRotate, setViewPort]
    split_ifs <;> rfl
  · simp only [dragRight, callTranslate, setViewPort]
    split_ifs <;> rfl
  · simp only [keypress, keypressSwitch, callRotate]
    split_ifs <;> rfl
  · simp only [specialkey, specialkeySwitch, callRotate]
    split_ifs <;> rfl
  · simp only [dragRight, callTranslate]
    split_ifs <;> rfl

/-- The integer `n` converts to the finite value `n`. -/
theorem extRat_intCast (n : Int) : ((n : Int) : ExtRat) = ExtRat.fin n := rfl

/-- The product of extended scalars is `ExtRat.mul`. -/
theorem extRat_mul (a b : ExtRat) : a * b = ExtRat.mul a b := rfl

/-- The difference of extended scalars is `ExtRat.sub`. -/
theorem extRat_sub (a b : ExtRat) : a - b = ExtRat.sub a b := rfl

/-- The zero of the extended scalars is the finite `0`. -/
theorem extRat_zero : (0 : ExtRat) = ExtRat.fin 0 := rfl

/-- The order of extended scalars is `ExtRat.lt`. -/
theorem extRat_lt (a b : ExtRat) : a < b ↔ ExtRat.lt a b = true := Iff.rfl

/-- Not-a-number is below nothing. -/
theorem extRat_not_nan_lt (b : ExtRat) : ¬ (ExtRat.nan < b) := by
  rw [extRat_lt]
  cases b <;> simp [ExtRat.lt]

/-- Nothing is below not-a-number. -/
theorem extRat_not_lt_nan (a : ExtRat) : ¬ (a < ExtRat.nan) := by
  rw [extRat_lt]
  cases a <;> simp [ExtRat.lt]

/-- The order of the extended scalars is transitive. -/
theorem extRat_lt_trans (x y z : ExtRat) (h₁ : x < y) (h₂ : y < z) : x < z := by
  rw [extRat_lt] at h₁ h₂ ⊢
  cases x <;> cases y <;> cases z <;> simp_all [ExtRat.lt]
  exact lt_trans h₁ h₂

/-- Zero is not below itself in the extended scalars. -/
theorem extRat_zero_not_lt_zero : ¬ ((0 : ExtRat) < 0) := by
  rw [extRat_lt, extRat_zero]
  simp [ExtRat.lt]

/-- C13, as stated, fails on the special values of `float`. First, a zero-delta right drag
with motion speed `+inf` and target `(0,0,3)` different from the position `(0,0,0)`: the
forward amount `0 * inf` is not a number, the guard is false and nothing is issued, where
the claim promises `translate((0,0,0), false)`. Second, a backward drag with forward amount
`-5 < 0` when target and position are both `(+inf,0,0)`: the view length is not a number,
the guard is false and nothing is issued, where the claim promises the call. -/
theorem dragRight_nonforward_counterexample :
    ((Vector3f.mk (ExtRat.fin 0) (ExtRat.fin 0) (ExtRat.fin 3)) ≠ ⟨.fin 0, .fin 0, .fin 0⟩ ∧
      ((-(7 - 7) : Int) : ExtRat) * ExtRat.inf false = ExtRat.nan ∧
      (dragRight extCollaborators ⟨5, 7⟩ ⟨2, 7⟩
        (extManipulator ⟨.fin 0, .fin 0, .fin 3⟩ ⟨.fin 0, .fin 0, .fin 0⟩ (.fin 1) (.inf false)
          ⟨.fin 0, .fin 0, .fin 0⟩)).2 = []) ∧
    (((-(10 - 0) : Int) : ExtRat) * ExtRat.fin (1 / 2) = ExtRat.fin (-5) ∧
      ExtRat.fin (-5) < 0 ∧
      extLength ((Vector3f.mk (ExtRat.inf false) (.fin 0) (.fin 0)).sub
        ⟨.inf false, .fin 0, .fin 0⟩) = ExtRat.nan ∧
      (dragRight extCollaborators ⟨0, 10⟩ ⟨0, 0⟩
        (extManipulator ⟨.inf false, .fin 0, .fin 0⟩ ⟨.inf false, .fin 0, .fin 0⟩ (.fin 1)
          (.fin (1 / 2)) ⟨.fin 0, .fin 0, .fin 0⟩)).2 = []) := by
  have hA : ((-(7 - 7) : Int) : ExtRat) * ExtRat.inf false = ExtRat.nan := by
    simp [extRat_intCast, extRat_mul, ExtRat.mul]
  have hB : ((-(10 - 0) : Int) : ExtRat) * ExtRat.fin (1 / 2) = ExtRat.fin (-5) := by
    simp only [extRat_intCast, extRat_mul, ExtRat.mul]
    norm_num
  have hL : extLength ((Vector3f.mk (ExtRat.inf false) (.fin 0) (.fin 0)).sub
      ⟨.inf false, .fin 0, .fin 0⟩) = ExtRat.nan := by
    simp [extLength, Vector3f.sub, extRat_sub, ExtRat.sub]
  refine ⟨⟨?_, hA, ?_⟩, ⟨hB, ?_, hL, ?_⟩⟩
  · simp
  · simp only [dragRight, extManipulator, extCollaborators, hA, if_neg (extRat_not_nan_lt _)]
  · rw [extRat_lt, extRat_zero]
    simp [ExtRat.lt]
  · simp only [dragRight, extManipulator, extCollaborators, hL, if_neg (extRat_not_lt_nan _)]

/-- C13, amended: for any scalar type whose `<` is transitive and has `¬ 0 < 0` (as for
`float`), and a view length `|target - position|` that is `0` or above `0`: a right drag
with `forwardAmount = -(to.y - from.y) * motionSpeed` below or equal to `0` issues its
`translate` call if and only if `forwardAmount < 0` or `0 < viewLength`, and issues nothing
exactly when both are `0`; where the view length is `0` exactly when target and position
coincide, this is `forwardAmount < 0` or `target ≠ position`. A zero-delta right drag whose
`0 * motionSpeed` is `0` issues `translate((0,0,0), false)` when `0 < viewLength` and nothing
when `viewLength = 0`. Any issued call is `translate((0,0,forwardAmount), false)` with
`forwardAmount` strictly below the view length. -/
theorem dragRight_nonforward [Zero F] [Sub F] [Mul F] [IntCast F] [LT F]
    [∀ a b : F, Decidable (a < b)] (ext : Collaborators F V)
    (m : InspectCenterManipulator F V) (to_ from_ : Vector2i) (forwardAmount viewLength : F)
    (hf : forwardAmount = ((-(to_.y - from_.y) : Int) : F) * m.window.motionSpeed)
    (hl : viewLength = ext.length
      ((ext.getTarget m.window.viewPort).sub (ext.getPosition m.window.viewPort)))
    (hirr : ¬ (0 : F) < 0)
    (htrans : ∀ x y z : F, x < y → y < z → x < z)
    (hlen : 0 < viewLength ∨ viewLength = 0) :
    ((forwardAmount < 0 ∨ forwardAmount = 0) →
      ((dragRight ext to_ from_ m).2 = [Call.translate ⟨0, 0, forwardAmount⟩ false] ↔
        (forwardAmount < 0 ∨ 0 < viewLength)) ∧
      ((dragRight ext to_ from_ m).2 = [] ↔ (forwardAmount = 0 ∧ viewLength = 0)) ∧
      ((viewLength = 0 ↔
          ext.getTarget m.window.viewPort = ext.getPosition m.window.viewPort) →
        ((dragRight ext to_ from_ m).2 = [Call.translate ⟨0, 0, forwardAmount⟩ false] ↔
          (forwardAmount < 0 ∨
            ext.getTarget m.window.viewPort ≠ ext.getPosition m.window.viewPort)))) ∧
    (to_.y = from_.y → ((0 : Int) : F) * m.window.motionSpeed = 0 →
      (0 < viewLength → (dragRight ext to_ from_ m).2 = [Call.translate ⟨0, 0, 0⟩ false]) ∧
      (viewLength = 0 → (dragRight ext to_ from_ m).2 = [])) ∧
    (∀ offset panPlane, Call.translate offset panPlane ∈ (dragRight ext to_ from_ m).2 →
      offset = ⟨0, 0, forwardAmount⟩ ∧ panPlane = false ∧ offset.z < viewLength) := by
  have hyes : forwardAmount < viewLength →
      (dragRight ext to_ from_ m).2 = [Call.translate ⟨0, 0, forwardAmount⟩ false] := by
    intro h
    subst hf hl
    simp only [dragRight, callTranslate, if_pos h]
  have hno : ¬ forwardAmount < viewLength → (dragRight ext to_ from_ m).2 = [] := by
    intro h
    subst hf hl
    simp only [dragRight, if_neg h]
  have hguard : (forwardAmount < 0 ∨ forwardAmount = 0) →
      (forwardAmount < viewLength ↔ (forwardAmount < 0 ∨ 0 < viewLength)) := by
    intro hnf
    constructor
    · intro hlt
      rcases hnf with h | h
      · exact Or.inl h
      · right
        rw [h] at hlt
        exact hlt
    · rintro (h | h)
      · rcases hlen with h0 | h0
        · exact htrans _ _ _ h h0
        · rw [h0]
          exact h
      · rcases hnf with ha | ha
        · exact htrans _ _ _ ha h
        · rw [ha]
          exact h
  have hissued : (dragRight ext to_ from_ m).2 = [Call.translate ⟨0, 0, forwardAmount⟩ false] ↔
      forwardAmount < viewLength := by
    constructor
    · intro hlog
      by_contra hcon
      rw [hno hcon] at hlog
      exact List.noConfusion hlog
    · exact hyes
  have hdropped : (dragRight ext to_ from_ m).2 = [] ↔ ¬ forwardAmount < viewLength := by
    constructor
    · intro hlog hcon
      rw [hyes hcon] at hlog
      exact List.noConfusion hlog
    · exact hno
  refine ⟨?_, ?_, ?_⟩
  · intro hnf
    refine ⟨hissued.trans (hguard hnf), ?_, ?_⟩
    · rw [hdropped, hguard hnf]
      constructor
      · intro hcon
        have ha : forwardAmount = 0 := by
          rcases hnf with h | h
          · exact absurd (Or.inl h) hcon
          · exact h
        have hL : viewLength = 0 := by
          rcases hlen with h | h
          · exact absurd (Or.inr h) hcon
          · exact h
        exact ⟨ha, hL⟩
      · rintro ⟨ha, hL⟩ (h | h)
        · rw [ha] at h
          exact hirr h
        · rw [hL] at h
          exact hirr h
    · intro hzero
      rw [hissued, hguard hnf]
      constructor
      · rintro (h | h)
        · exact Or.inl h
        · right
          intro heq
          rw [hzero.mpr heq] at h
          exact hirr h
      · rintro (h | h)
        · exact Or.inl h
        · right
          rcases hlen with h0 | h0
          · exact h0
          · exact absurd (hzero.mp h0) h
  · intro hy hz
    have h0 : -(to_.y - from_.y) = 0 := by
      rw [hy]
      simp
    have hfz : forwardAmount = 0 := by
      rw [hf, h0, hz]
    constructor
    · intro hpos
      have h := hyes (by rw [hfz]; exact hpos)
      rw [hfz] at h
      exact h
    · intro hL
      apply hno
      rw [hfz, hL]
      exact hirr
  · intro offset panPlane hmem
    by_cases h : forwardAmount < viewLength
    · rw [hyes h] at hmem
      simp only [List.mem_singleton, Call.translate.injEq] at hmem
      refine ⟨hmem.1, hmem.2, ?_⟩
      rw [hmem.1]
      exact h
    · rw [hno h] at hmem
      exact absurd hmem (List.not_mem_nil _)

/-- C13, examples over the rationals with motion speed `1/2`: with target `(0,0,3)` and the
position at the origin (view length `3`) the backward drag `(0,0) → (0,10)` is issued with
offset `(0,0,-5)` and the zero-delta drag `(1,7) → (4,7)` is issued with offset `(0,0,0)`;
with target and position both at the origin the zero-delta drag issues nothing. The last
example is the zero-delta drag over the extended scalars with a finite motion speed. -/
theorem dragRight_nonforward_witness :
    (dragRight plainCollaborators ⟨0, 10⟩ ⟨0, 0⟩
        (plainManipulator ⟨0, 0, 3⟩ ⟨0, 0, 0⟩ 1 (1 / 2) ⟨0, 0, 0⟩)).2
      = [Call.translate ⟨0, 0, -5⟩ false] ∧
    (dragRight plainCollaborators ⟨4, 7⟩ ⟨1, 7⟩
        (plainManipulator ⟨0, 0, 3⟩ ⟨0, 0, 0⟩ 1 (1 / 2) ⟨0, 0, 0⟩)).2
      = [Call.translate ⟨0, 0, 0⟩ false] ∧
    (dragRight plainCollaborators ⟨4, 7⟩ ⟨1, 7⟩
        (plainManipulator ⟨0, 0, 0⟩ ⟨0, 0, 0⟩ 1 (1 / 2) ⟨0, 0, 0⟩)).2 = [] ∧
    (dragRight extCollaborators ⟨4, 7⟩ ⟨1, 7⟩
        (extManipulator ⟨.fin 0, .fin 0, .fin 3⟩ ⟨.fin 0, .fin 0, .fin 0⟩ (.fin 1)
          (.fin (1 / 2)) ⟨.fin 0, .fin 0, .fin 0⟩)).2
      = [Call.translate ⟨0, 0, 0⟩ false] := by
  have hlen3 : ratLength ((Vector3f.mk 0 0 3).sub ⟨0, 0, 0⟩) = 3 :=
    ratLength_axis 3 (by norm_num)
  have hlen0 : ratLength ((Vector3f.mk 0 0 0).sub ⟨0, 0, 0⟩) = 0 :=
    ratLength_axis 0 (le_refl 0)
  have hext3 : extLength ((Vector3f.mk (ExtRat.fin 0) (.fin 0) (.fin 3)).sub
      ⟨.fin 0, .fin 0, .fin 0⟩) = ExtRat.fin 3 := by
    have h := hlen3
    simp only [Vector3f.sub] at h
    simp only [extLength, Vector3f.sub, extRat_sub, ExtRat.sub, h]
  refine ⟨?_, ?_, ?_, ?_⟩
  · exact ((dragRight_nonforward plainCollaborators
      (plainManipulator ⟨0, 0, 3⟩ ⟨0, 0, 0⟩ 1 (1 / 2) ⟨0, 0, 0⟩) ⟨0, 10⟩ ⟨0, 0⟩ (-5) 3
      (by norm_num [plainManipulator])
      (by simpa [plainManipulator, plainCollaborators] using hlen3.symm)
      (lt_irrefl 0) (fun _ _ _ => lt_trans) (Or.inl (by norm_num))).1
      (Or.inl (by norm_num))).1.mpr (Or.inl (by norm_num))
  · exact ((dragRight_nonforward plainCollaborators
      (plainManipulator ⟨0, 0, 3⟩ ⟨0, 0, 0⟩ 1 (1 / 2) ⟨0, 0, 0⟩) ⟨4, 7⟩ ⟨1, 7⟩ 0 3
      (by norm_num [plainManipulator])
      (by simpa [plainManipulator, plainCollaborators] using hlen3.symm)
      (lt_irrefl 0) (fun _ _ _ => lt_trans) (Or.inl (by norm_num))).2.1 rfl
      (by norm_num [plainManipulator])).1 (by norm_num)
  · exact ((dragRight_nonforward plainCollaborators
      (plainManipulator ⟨0, 0, 0⟩ ⟨0, 0, 0⟩ 1 (1 / 2) ⟨0, 0, 0⟩) ⟨4, 7⟩ ⟨1, 7⟩ 0 0
      (by norm_num [plainManipulator])
      (by simpa [plainManipulator, plainCollaborators] using hlen0.symm)
      (lt_irrefl 0) (fun _ _ _ => lt_trans) (Or.inr rfl)).2.1 rfl
      (by norm_num [plainManipulator])).2 rfl
  · exact ((dragRight_nonforward extCollaborators
      (extManipulator ⟨.fin 0, .fin 0, .fin 3⟩ ⟨.fin 0, .fin 0, .fin 0⟩ (.fin 1)
        (.fin (1 / 2)) ⟨.fin 0, .fin 0, .fin 0⟩) ⟨4, 7⟩ ⟨1, 7⟩ 0 (.fin 3)
      (by simp [extManipulator, extRat_intCast, extRat_mul, extRat_zero, ExtRat.mul])
      (by simpa [extManipulator, extCollaborators] using hext3.symm)
      extRat_zero_not_lt_zero extRat_lt_trans
      (Or.inl (by rw [extRat_lt, extRat_zero]; simp [ExtRat.lt]))).2.1 rfl
      (by simp [extManipulator, extRat_intCast, extRat_mul, extRat_zero, ExtRat.mul])).1
      (by rw [extRat_lt, extRat_zero]; simp [ExtRat.lt])

/-- C14: the three drag handlers see the pointer coordinates only through `to - from`:
shifting `to` and `from` by the same integer offset `c` changes nothing in the result of
`dragLeft`, `dragMiddle` and `dragRight`; and, over exact ring arithmetic, swapping `to` and
`from` negates both deltas of the `rotate` call of `dragLeft` and the x and y components of
the `translate` offset of `dragMiddle` (the z component stays `0`). -/
theorem drag_depends_on_delta [Ring F] [LT F] [∀ a b : F, Decidable (a < b)]
    (ext : Collaborators F V) (m : InspectCenterManipulator F V) (to_ from_ c : Vector2i) :
    (dragLeft ext ⟨to_.x + c.x, to_.y + c.y⟩ ⟨from_.x + c.x, from_.y + c.y⟩ m
        = dragLeft ext to_ from_ m ∧
      dragMiddle ext ⟨to_.x + c.x, to_.y + c.y⟩ ⟨from_.x + c.x, from_.y + c.y⟩ m
        = dragMiddle ext to_ from_ m ∧
      dragRight ext ⟨to_.x + c.x, to_.y + c.y⟩ ⟨from_.x + c.x, from_.y + c.y⟩ m
        = dragRight ext to_ from_ m) ∧
    ((dragLeft ext to_ from_ m).2
        = [Call.rotate (ext.getTarget m.window.viewPort)
            (((to_.x - from_.x : Int) : F) * m.window.rotateSpeed)
            (((to_.y - from_.y : Int) : F) * m.window.rotateSpeed) false] ∧
      (dragLeft ext from_ to_ m).2
        = [Call.rotate (ext.getTarget m.window.viewPort)
            (-(((to_.x - from_.x : Int) : F) * m.window.rotateSpeed))
            (-(((to_.y - from_.y : Int) : F) * m.window.rotateSpeed)) false]) ∧
    ((dragMiddle ext to_ from_ m).2
        = [Call.translate
            ⟨((to_.x - from_.x : Int) : F) * m.window.motionSpeed,
              ((to_.y - from_.y : Int) : F) * m.window.motionSpeed, 0⟩ true] ∧
      (dragMiddle ext from_ to_ m).2
        = [Call.translate
            ⟨-(((to_.x - from_.x : Int) : F) * m.window.motionSpeed),
              -(((to_.y - from_.y : Int) : F) * m.window.motionSpeed), 0⟩ true]) := by
  have hx : to_.x + c.x - (from_.x + c.x) = to_.x - from_.x := by ring
  have hy : to_.y + c.y - (from_.y + c.y) = to_.y - from_.y := by ring
  have swap : ∀ (a b : Int) (r : F), ((b - a : Int) : F) * r = -(((a - b : Int) : F) * r) := by
    intro a b r
    rw [show b - a = -(a - b) by ring, Int.cast_neg, neg_mul]
  refine ⟨⟨?_, ?_, ?_⟩, ⟨rfl, ?_⟩, ⟨rfl, ?_⟩⟩
  · simp only [dragLeft, hx, hy]
  · simp only [dragMiddle, hx, hy]
  · simp only [dragRight, hy]
  · simp only [dragLeft, callRotate, swap to_.x from_.x, swap to_.y from_.y]
  · simp only [dragMiddle, callTranslate, swap to_.x from_.x, swap to_.y from_.y]

/-- C14, example: with motion speed `2` the middle drag `(0,0) → (3,4)` and its shift by
`(10,-7)` both give `translate((6,8,0), true)`, and the swapped drag gives
`translate((-6,-8,0), true)`. -/
theorem drag_depends_on_delta_witness :
    (dragMiddle plainCollaborators ⟨13, -3⟩ ⟨10, -7⟩
        (plainManipulator ⟨0, 0, 3⟩ ⟨0, 0, 0⟩ 1 2 ⟨0, 0, 0⟩)).2
      = [Call.translate ⟨6, 8, 0⟩ true] ∧
    (dragMiddle plainCollaborators ⟨0, 0⟩ ⟨3, 4⟩
        (plainManipulator ⟨0, 0, 3⟩ ⟨0, 0, 0⟩ 1 2 ⟨0, 0, 0⟩)).2
      = [Call.translate ⟨-6, -8, 0⟩ true] := by
  have h := drag_depends_on_delta plainCollaborators
    (plainManipulator ⟨0, 0, 3⟩ ⟨0, 0, 0⟩ 1 2 ⟨0, 0, 0⟩) ⟨3, 4⟩ ⟨0, 0⟩ ⟨10, -7⟩
  constructor
  · have h1 := h.1.2.1
    norm_num at h1
    rw [h1, h.2.2.1]
    norm_num [plainManipulator]
  · rw [h.2.2.2]
    norm_num [plainManipulator]

end InspectCenterManipulator

end brayns
